import Mathlib

/-!
Shallow embedding of the streaming / handoff / approval core of the
`aws_cloudops_agent` repository, and proofs about it.

Sources embedded (Python):
* `src/utils/query_extractor.py` — `extract_tool_query`
* `src/utils/responses.py` — `process_text_formatting`,
  `extract_content_from_event`, `format_diy_response`, `extract_text_from_event`
* `src/agent_runtime.py` — `_is_handoff_event`, the event loop of
  `execute_agent_streaming`, and the SSE loop of `stream_response`
* `src/lambdas/lambda_approval_handler.py` — `verify_slack_signature`,
  `get_alert_data`, `update_alert_status`, `lambda_handler`
* `src/lambdas/lambda_execution_handler.py` — `lambda_handler`,
  `execute_with_agent`, `parse_execution_log`, `update_execution_status`,
  `upload_execution_results`
* `src/lambdas/lambda_execution_handler_copy.py` — `lambda_handler`
  (the `GET /execute` API-Gateway variant), `execute_with_agent`,
  `upload_execution_results`

Python strings are modelled as Lean `String`; all string manipulation is
re-implemented on `List Char` in structurally recursive style so that closed
instances evaluate inside the kernel.  External collaborators (DynamoDB, S3,
SNS, Slack webhooks, the Bedrock agent call, the HMAC primitive from
`hashlib`/`hmac`) are modelled as explicit inputs: a store is a function
`String → Option Alert`, the agent call outcome is an `Except String String`
argument, the wall clock is a string argument, and `hmacHex` is an arbitrary
function argument standing for `hmac.new(secret, msg, sha256).hexdigest()`.
-/

namespace AwsCloudOps

/-! ## Python-style string primitives -/

/-- The whitespace characters recognised by Python's `str.split()` /
`str.strip()` for the ASCII range used throughout this code base. -/
def pyIsSpace (c : Char) : Bool :=
  c = ' ' || c = '\t' || c = '\n' || c = '\r' || c = '\x0b' || c = '\x0c'

/-- ASCII lower-casing of one character, as `str.lower` acts on the ASCII
inputs this code handles. -/
def pyLowerChar (c : Char) : Char :=
  if 'A' ≤ c ∧ c ≤ 'Z' then Char.ofNat (c.toNat + 32) else c

/-- Python `s.lower()` (ASCII fragment). -/
def pyLower (s : String) : String :=
  ⟨s.data.map pyLowerChar⟩

/-- Python `s[:n]` (character slicing; the strings handled here are treated
per code point). -/
def pyTake (s : String) (n : Nat) : String :=
  ⟨s.data.take n⟩

/-- Contiguous-substring test on character lists. -/
def isSubList (needle : List Char) : List Char → Bool
  | [] => needle.isEmpty
  | c :: rest => needle.isPrefixOf (c :: rest) || isSubList needle rest

/-- Python `needle in hay` on strings (substring test). -/
def pyContains (hay needle : String) : Bool :=
  isSubList needle.data hay.data

/-- Python `s.strip()` (both-ends whitespace removal). -/
def pyStrip (s : String) : String :=
  ⟨((s.data.dropWhile pyIsSpace).reverse.dropWhile pyIsSpace).reverse⟩

/-- Worker for `pyReplace`; the fuel (initialised to the length of the
subject) only makes the recursion structural, it never runs out on a
non-empty pattern. -/
def replaceGo : Nat → List Char → List Char → List Char → List Char
  | 0, s, _, _ => s
  | _ + 1, [], _, _ => []
  | fuel + 1, c :: rest, pat, rep =>
    if pat.isPrefixOf (c :: rest) then
      rep ++ replaceGo fuel ((c :: rest).drop pat.length) pat rep
    else
      c :: replaceGo fuel rest pat rep

/-- Python `s.replace(pat, rep)`: left-to-right, non-overlapping replacement
of every occurrence.  (Only called with non-empty `pat` in this code base.) -/
def pyReplace (s pat rep : String) : String :=
  ⟨replaceGo s.data.length s.data pat.data rep.data⟩

/-- Worker for `pySplitWs`: whitespace-separated words, empty words dropped,
exactly as Python's argumentless `str.split()`. -/
def wordsAux : List Char → List Char → List String
  | [], acc => if acc.isEmpty then [] else [⟨acc.reverse⟩]
  | c :: rest, acc =>
    if pyIsSpace c then
      if acc.isEmpty then wordsAux rest [] else ⟨acc.reverse⟩ :: wordsAux rest []
    else
      wordsAux rest (c :: acc)

/-- Python `s.split()` (split on whitespace runs, dropping empty tokens). -/
def pySplitWs (s : String) : List String :=
  wordsAux s.data []

/-- Worker for `pySplitLines`. -/
def splitLinesAux : List Char → List Char → List String
  | [], acc => [⟨acc.reverse⟩]
  | c :: rest, acc =>
    if c = '\n' then ⟨acc.reverse⟩ :: splitLinesAux rest []
    else splitLinesAux rest (c :: acc)

/-- Python `s.split("\n")` (keeps empty segments, as Python does for an
explicit separator). -/
def pySplitLines (s : String) : List String :=
  splitLinesAux s.data []

/-- Worker for `pySplitOn` (separator assumed non-empty; fuel is the subject
length, making the recursion structural). -/
def splitOnGo : Nat → List Char → List Char → List Char → List (List Char)
  | 0, s, _, acc => [acc.reverse ++ s]
  | _ + 1, [], _, acc => [acc.reverse]
  | fuel + 1, c :: rest, sep, acc =>
    if sep.isPrefixOf (c :: rest) then
      acc.reverse :: splitOnGo fuel ((c :: rest).drop sep.length) sep []
    else
      splitOnGo fuel rest sep (c :: acc)

/-- Python `s.split(sep)` for a non-empty separator. -/
def pySplitOn (s sep : String) : List String :=
  (splitOnGo s.data.length s.data sep.data []).map fun l => ⟨l⟩

/-- `" ".join`-style joining with a separator. -/
def joinSep (sep : String) : List String → String
  | [] => ""
  | [s] => s
  | s :: rest => s ++ sep ++ joinSep sep rest

/-- Rendering of a Python `Optional[str]` inside an f-string:
`None` prints as `"None"`. -/
def optStr : Option String → String
  | none => "None"
  | some s => s

/-! ## `src/utils/query_extractor.py` -/

/-- The stop-word set of `extract_tool_query` (verbatim from the source). -/
def stopWords : List String :=
  ["i", "me", "my", "myself", "we", "our", "ours", "ourselves", "you",
   "your", "yours", "yourself", "yourselves", "he", "him", "his", "himself",
   "she", "her", "hers", "herself", "it", "its", "itself", "they", "them",
   "their", "theirs", "themselves", "what", "which", "who", "whom", "this",
   "that", "these", "those", "am", "is", "are", "was", "were", "be", "been",
   "being", "have", "has", "had", "having", "do", "does", "did", "doing",
   "a", "an", "the", "and", "but", "if", "or", "because", "as", "until",
   "while", "of", "at", "by", "for", "with", "about", "against", "between",
   "into", "through", "during", "before", "after", "above", "below", "to",
   "from", "up", "down", "in", "out", "on", "off", "over", "under", "again",
   "further", "then", "once", "can", "could", "should", "would", "please",
   "help", "show", "tell", "give", "get", "need", "want"]

/-- The token filter of `extract_tool_query`:
`[w for w in words if w not in stop_words and len(w) > 2]` applied to
`prompt.lower().split()`. -/
def keyWordsOf (prompt : String) : List String :=
  (pySplitWs (pyLower prompt)).filter fun w =>
    !(stopWords.contains w) && decide (w.length > 2)

/-- `extract_tool_query(prompt)`: drop stop words and short tokens; if fewer
than 3 tokens remain fall back to `prompt[:100]`, else join the first 10
tokens with single spaces. -/
def extractToolQuery (prompt : String) : String :=
  let keyWords := keyWordsOf prompt
  if keyWords.length < 3 then pyTake prompt 100
  else joinSep " " (keyWords.take 10)

/-! ## The JSON fragment handled by `json.dumps` in this code base -/

/-- JSON values: strings, booleans, naturals, objects (insertion-ordered
key/value lists, as Python dict literals), arrays. -/
inductive Json where
  | str : String → Json
  | bool : Bool → Json
  | num : Nat → Json
  | obj : List (String × Json) → Json
  | arr : List Json → Json

/-- Lower-case hex digit, as `"%04x" % i` renders one nibble. -/
def hexDigitChar : Nat → Char
  | 0 => '0'
  | 1 => '1'
  | 2 => '2'
  | 3 => '3'
  | 4 => '4'
  | 5 => '5'
  | 6 => '6'
  | 7 => '7'
  | 8 => '8'
  | 9 => '9'
  | 10 => 'a'
  | 11 => 'b'
  | 12 => 'c'
  | 13 => 'd'
  | 14 => 'e'
  | 15 => 'f'
  | _ => '0'

/-- Escaping of one character inside a JSON string literal, exactly as
`json.dumps(..., ensure_ascii=False)` does it: backslash, quote and the
named control characters get two-character escapes, the remaining control
characters below U+0020 get `\u00xx`, everything else passes through. -/
def escChar (c : Char) : List Char :=
  if c = '\\' then ['\\', '\\']
  else if c = '"' then ['\\', '"']
  else if c = '\x08' then ['\\', 'b']
  else if c = '\x0c' then ['\\', 'f']
  else if c = '\n' then ['\\', 'n']
  else if c = '\r' then ['\\', 'r']
  else if c = '\t' then ['\\', 't']
  else if c.toNat < 32 then
    ['\\', 'u', '0', '0', hexDigitChar (c.toNat / 16), hexDigitChar (c.toNat % 16)]
  else [c]

/-- JSON string-body escaping over a character list. -/
def escList : List Char → List Char
  | [] => []
  | c :: cs => escChar c ++ escList cs

mutual

/-- `json.dumps(v, ensure_ascii=False)` with Python's default separators
(`", "` between items, `": "` after keys) and insertion-ordered keys. -/
def dumpsVal : Json → List Char
  | .str s => '"' :: (escList s.data ++ ['"'])
  | .bool true => ['t', 'r', 'u', 'e']
  | .bool false => ['f', 'a', 'l', 's', 'e']
  | .num n => (Nat.repr n).data
  | .obj ms => '{' :: (dumpsMembers ms ++ ['}'])
  | .arr vs => '[' :: (dumpsElems vs ++ [']'])

/-- Object members, `", "`-separated. -/
def dumpsMembers : List (String × Json) → List Char
  | [] => []
  | [(k, v)] => '"' :: (escList k.data ++ ['"', ':', ' '] ++ dumpsVal v)
  | (k, v) :: m :: ms =>
    '"' :: (escList k.data ++ ['"', ':', ' '] ++ dumpsVal v ++ [',', ' '] ++ dumpsMembers (m :: ms))

/-- Array elements, `", "`-separated. -/
def dumpsElems : List Json → List Char
  | [] => []
  | [v] => dumpsVal v
  | v :: w :: vs => dumpsVal v ++ [',', ' '] ++ dumpsElems (w :: vs)

end

/-- `json.dumps` as a `String → String` level function. -/
def dumps (v : Json) : String :=
  ⟨dumpsVal v⟩

/-- Value of a hex digit, or `none` for a non-digit. -/
def hexVal? (c : Char) : Option Nat :=
  if '0' ≤ c ∧ c ≤ '9' then some (c.toNat - '0'.toNat)
  else if 'a' ≤ c ∧ c ≤ 'f' then some (c.toNat - 'a'.toNat + 10)
  else if 'A' ≤ c ∧ c ≤ 'F' then some (c.toNat - 'A'.toNat + 10)
  else none

/-- Scanner state inside a JSON string literal: plain characters, just
after a backslash, or inside a `\uXXXX` escape (accumulated value and how
many hex digits were read). -/
inductive ScanState where
  | normal : ScanState
  | esc : ScanState
  | hex : Nat → Nat → ScanState

/-- JSON string-body scanner (the part after the opening quote): consumes
one character per step, decoding the escapes a JSON parser accepts (the
named two-character escapes and `\uXXXX`), and returns the decoded
characters and the remainder after the closing quote. -/
def parseStrGo : ScanState → List Char → Option (List Char × List Char)
  | _, [] => none
  | .normal, c :: rest =>
    if c = '"' then some ([], rest)
    else if c = '\\' then parseStrGo .esc rest
    else (parseStrGo .normal rest).map fun p => (c :: p.1, p.2)
  | .esc, e :: rest =>
    if e = '"' then (parseStrGo .normal rest).map fun p => ('"' :: p.1, p.2)
    else if e = '\\' then (parseStrGo .normal rest).map fun p => ('\\' :: p.1, p.2)
    else if e = '/' then (parseStrGo .normal rest).map fun p => ('/' :: p.1, p.2)
    else if e = 'b' then (parseStrGo .normal rest).map fun p => ('\x08' :: p.1, p.2)
    else if e = 'f' then (parseStrGo .normal rest).map fun p => ('\x0c' :: p.1, p.2)
    else if e = 'n' then (parseStrGo .normal rest).map fun p => ('\n' :: p.1, p.2)
    else if e = 'r' then (parseStrGo .normal rest).map fun p => ('\r' :: p.1, p.2)
    else if e = 't' then (parseStrGo .normal rest).map fun p => ('\t' :: p.1, p.2)
    else if e = 'u' then parseStrGo (.hex 0 0) rest
    else none
  | .hex acc k, h :: rest =>
    match hexVal? h with
    | none => none
    | some v =>
      if k = 3 then (parseStrGo .normal rest).map fun p => (Char.ofNat (16 * acc + v) :: p.1, p.2)
      else parseStrGo (.hex (16 * acc + v) (k + 1)) rest

/-- String-body reading from the normal state. -/
def parseStrBody (cs : List Char) : Option (List Char × List Char) :=
  parseStrGo .normal cs

/-- Reader for a non-empty `", "`-separated member list followed by the
closing brace, parameterised by the value reader `pv`.  The fuel only bounds
the number of members; callers supply more than the input can consume. -/
def parseMembersWith (pv : List Char → Option (Json × List Char)) :
    Nat → List Char → Option (List (String × Json) × List Char)
  | 0, _ => none
  | n + 1, cs =>
    match cs with
    | '"' :: rest =>
      match parseStrBody rest with
      | some (k, ':' :: ' ' :: rest2) =>
        match pv rest2 with
        | some (v, ',' :: ' ' :: rest4) =>
          (parseMembersWith pv n rest4).map fun p => ((⟨k⟩, v) :: p.1, p.2)
        | some (v, '}' :: rest4) => some ([(⟨k⟩, v)], rest4)
        | _ => none
      | _ => none
    | _ => none

/-- Reader for one JSON value in the exact textual form `dumpsVal` emits
(separators `": "` and `", "`, no extra whitespace) — the fragment of
`json.loads` exercised by the SSE round-trip.  The fuel only bounds object
nesting; `parseJson` supplies more than any input can consume. -/
def parseVal : Nat → List Char → Option (Json × List Char)
  | 0, _ => none
  | _ + 1, [] => none
  | n + 1, c :: rest =>
    if c = '"' then (parseStrBody rest).map fun p => (Json.str ⟨p.1⟩, p.2)
    else if c = 't' then
      match rest with
      | 'r' :: 'u' :: 'e' :: r => some (Json.bool true, r)
      | _ => none
    else if c = 'f' then
      match rest with
      | 'a' :: 'l' :: 's' :: 'e' :: r => some (Json.bool false, r)
      | _ => none
    else if c = '{' then
      match rest with
      | '}' :: r => some (Json.obj [], r)
      | _ => (parseMembersWith (parseVal n) (rest.length + 1) rest).map fun p => (Json.obj p.1, p.2)
    else none

/-- JSON parsing of a whole string (no trailing remainder). -/
def parseJson (s : String) : Option Json :=
  match parseVal (s.data.length + 1) s.data with
  | some (v, []) => some v
  | _ => none

/-- Strip the SSE wire framing: the `"data: "` prefix and the trailing
`"\n\n"`. -/
def stripFrame (s : String) : Option String :=
  match s.data with
  | 'd' :: 'a' :: 't' :: 'a' :: ':' :: ' ' :: rest =>
    match rest.reverse with
    | '\n' :: '\n' :: mid => some ⟨mid.reverse⟩
    | _ => none
  | _ => none

/-! ## Model of the Python runtime values flowing through the stream

The streaming code duck-types its events: it distinguishes `dict`s (probed
with `isinstance`/`in`/`.get`) from SDK objects (probed with
`hasattr(event, "delta")`).  `PyVal.obj typeName deltaText repr` models a
non-dict backend object through exactly the three features the code reads
from it: its class name (`type(event).__name__`), its optional
`.delta.text` attribute, and its `str()` rendering. -/

inductive PyVal where
  | str : String → PyVal
  | bool : Bool → PyVal
  | dict : List (String × PyVal) → PyVal
  | obj : String → Option String → String → PyVal

/-- Python `d.get(key)` on a dict (first occurrence; Python dicts cannot
hold duplicate keys). -/
def dictGet : List (String × PyVal) → String → Option PyVal
  | [], _ => none
  | (k, v) :: rest, key => if k = key then some v else dictGet rest key

/-- Python truthiness of the modelled values. -/
def pyTruthy : PyVal → Bool
  | .str s => !s.data.isEmpty
  | .bool b => b
  | .dict d => !d.isEmpty
  | .obj _ _ _ => true

mutual

/-- Python `repr()` of the modelled values (strings quoted; `repr`'s own
escaping of quotes and control characters inside strings is not modelled —
no claim depends on the exact rendering). -/
def pyRepr : PyVal → String
  | .str s => "'" ++ s ++ "'"
  | .bool true => "True"
  | .bool false => "False"
  | .dict ms => "\x7b" ++ pyReprMembers ms ++ "\x7d"
  | .obj _ _ r => r

/-- `repr()` of dict members. -/
def pyReprMembers : List (String × PyVal) → String
  | [] => ""
  | [(k, v)] => "'" ++ k ++ "': " ++ pyRepr v
  | (k, v) :: m :: ms => "'" ++ k ++ "': " ++ pyRepr v ++ ", " ++ pyReprMembers (m :: ms)

end

/-- Python `str()` of the modelled values (`str` of a string is itself,
everything else falls back to `repr`). -/
def pyStr : PyVal → String
  | .str s => s
  | .obj _ _ r => r
  | v => pyRepr v

/-- `type(event).__name__`. -/
def pyTypeName : PyVal → String
  | .str _ => "str"
  | .bool _ => "bool"
  | .dict _ => "dict"
  | .obj t _ _ => t

/-! ## `src/utils/responses.py` -/

/-- `process_text_formatting(text)`: convert the literal two-character
escape sequences `\n`, `\t`, `\r` into real control characters; empty text
is returned unchanged. -/
def processTextFormatting (text : String) : String :=
  if text = "" then text
  else pyReplace (pyReplace (pyReplace text "\\n" "\n") "\\t" "\t") "\\r" "\r"

/-- `str(event)[:200] + "..." if len(str(event)) > 200 else str(event)` —
the bounded `raw_event` diagnostic copy. -/
def truncateRaw (s : String) : String :=
  if s.data.length > 200 then pyTake s 200 ++ "..." else s

/-- The normalized record `extract_content_from_event` returns. -/
structure ContentData where
  content : String
  event_type : String
  has_text : Bool
  raw_event : String
deriving DecidableEq

/-- `tool_name.split("___")[-1] if "___" in tool_name else tool_name` —
namespace stripping for tool display names. -/
def cleanToolName (tool_name : String) : String :=
  if pyContains tool_name "___" then (pySplitOn tool_name "___").getLastD tool_name
  else tool_name

/-- The synthesized tool-start announcement
`f"\n🔍 Using {clean_tool_name} tool...(ID: {tool_id})\n"`. -/
def toolAnnouncement (clean_tool_name tool_id : String) : String :=
  "\n🔍 Using " ++ clean_tool_name ++ " tool...(ID: " ++ tool_id ++ ")\n"

/-- Priority 1 of `extract_content_from_event`: nested dict structure
`event["event"]["contentBlockDelta"].get("delta", {})["text"]`, accepted
only when the text is a non-empty string.  (A non-dict value where the code
expects a dict would raise at runtime; such events are outside the model.) -/
def priorityOneText (event : PyVal) : Option String :=
  match event with
  | .dict d =>
    match dictGet d "event" with
    | some (.dict inner) =>
      match dictGet inner "contentBlockDelta" with
      | some (.dict cbd) =>
        match dictGet cbd "delta" with
        | some (.dict delta) =>
          match dictGet delta "text" with
          | some (.str t) => if t = "" then none else some t
          | _ => none
        | _ => none
      | _ => none
    | _ => none
  | _ => none

/-- Priority 1.5 of `extract_content_from_event`: a `contentBlockStart`
carrying a `toolUse` block; synthesizes the tool announcement from
`.get("name", "unknown_tool")` and `.get("toolUseId", "unknown_id")`. -/
def priorityToolStart (event : PyVal) : Option String :=
  match event with
  | .dict d =>
    match dictGet d "event" with
    | some (.dict inner) =>
      match dictGet inner "contentBlockStart" with
      | some (.dict cbs) =>
        match dictGet cbs "start" with
        | some (.dict start) =>
          match dictGet start "toolUse" with
          | some (.dict tu) =>
            let tool_name :=
              match dictGet tu "name" with
              | some (.str n) => n
              | some v => pyStr v
              | none => "unknown_tool"
            let tool_id :=
              match dictGet tu "toolUseId" with
              | some (.str i) => i
              | some v => pyStr v
              | none => "unknown_id"
            some (toolAnnouncement (cleanToolName tool_name) tool_id)
          | _ => none
        | _ => none
      | _ => none
    | _ => none
  | _ => none

/-- Priority 2 of `extract_content_from_event`:
`hasattr(event, "delta") and hasattr(event.delta, "text")` with truthy text
(only non-dict SDK objects can carry attributes). -/
def priorityDeltaAttr (event : PyVal) : Option String :=
  match event with
  | .obj _ (some t) _ => if t = "" then none else some t
  | _ => none

/-- `extract_content_from_event(event)`: priority-ordered extraction that
stops at the first match; priority 3 of the source (regex over
`str(event)`) is entirely commented out there and extracts nothing. -/
def extractContentFromEvent (event : PyVal) : ContentData :=
  let extracted :=
    match priorityOneText event with
    | some t => some t
    | none =>
      match priorityToolStart event with
      | some t => some t
      | none => priorityDeltaAttr event
  match extracted with
  | some t =>
    { content := processTextFormatting t
      event_type := pyTypeName event
      has_text := true
      raw_event := truncateRaw (pyStr event) }
  | none =>
    { content := ""
      event_type := pyTypeName event
      has_text := false
      raw_event := truncateRaw (pyStr event) }

/-- The SSE payload object `format_diy_response` builds from the extracted
content (text shape when `has_text`, legacy event shape otherwise). -/
def ssePayload (contentData : ContentData) : Json :=
  if contentData.has_text then
    .obj [("content", .str contentData.content),
          ("type", .str "text_delta"),
          ("metadata", .obj [("event_type", .str contentData.event_type),
                             ("has_formatting", .bool (pyContains contentData.content "\n"))])]
  else
    .obj [("event", .str contentData.raw_event),
          ("type", .str "event"),
          ("metadata", .obj [("event_type", .str contentData.event_type)])]

/-- `format_diy_response(event) = f"data: {json.dumps(sse_payload, ensure_ascii=False)}\n\n"`. -/
def formatDiyResponse (event : PyVal) : String :=
  "data: " ++ dumps (ssePayload (extractContentFromEvent event)) ++ "\n\n"

/-- `extract_text_from_event(event)`: the `content` field of the extracted
record (empty when the event has no text). -/
def extractTextFromEvent (event : PyVal) : String :=
  (extractContentFromEvent event).content

/-! ## `src/agent_runtime.py` — handoff detection and the stream pipeline -/

/-- The `toolUse` value reached by
`inner["contentBlockStart"].get("start", {})["toolUse"]`, when present. -/
def toolUseOf (inner : List (String × PyVal)) : Option PyVal :=
  match dictGet inner "contentBlockStart" with
  | some (.dict cbs) =>
    match dictGet cbs "start" with
    | some (.dict start) => dictGet start "toolUse"
    | _ => none
  | _ => none

/-- `_is_handoff_event(event)`: a dict event whose inner event either starts
the reserved `handoff_to_user` tool (this branch returns early, even on a
name mismatch) or carries a text delta containing one of the two fixed
confirmation-prompt substrings. -/
def isHandoffEvent (event : PyVal) : Bool :=
  match event with
  | .dict d =>
    match dictGet d "event" with
    | some (.dict inner) =>
      match toolUseOf inner with
      | some (.dict tu) =>
        (match dictGet tu "name" with
         | some (.str n) => decide (n = "handoff_to_user")
         | _ => false)
      | some _ => false
      | none =>
        match dictGet inner "contentBlockDelta" with
        | some (.dict cbd) =>
          match dictGet cbd "delta" with
          | some (.dict delta) =>
            match dictGet delta "text" with
            | some (.str t) =>
              pyContains t "Do you want to proceed? [y/*]" || pyContains t "is potentially mutative"
            | _ => false
          | _ => false
        | _ => false
    | _ => false
  | _ => false

/-- The marker dict `{"handoff_required": True, "event": event}` yielded by
`execute_agent_streaming` on a handoff event. -/
def handoffMarker (event : PyVal) : PyVal :=
  .dict [("handoff_required", .bool true), ("event", event)]

/-- The per-event loop body of `execute_agent_streaming` (identical on the
local, gateway and fallback paths): a handoff event always yields a marker
and sets the flag; other events are forwarded only before the flag is set. -/
def innerStreamGo : Bool → List PyVal → List PyVal
  | _, [] => []
  | handoff_detected, e :: rest =>
    if isHandoffEvent e then handoffMarker e :: innerStreamGo true rest
    else if !handoff_detected then e :: innerStreamGo handoff_detected rest
    else innerStreamGo handoff_detected rest

/-- `execute_agent_streaming`, as a transformer of the agent's event list. -/
def executeAgentStreaming (events : List PyVal) : List PyVal :=
  innerStreamGo false events

/-- The synthetic handoff-required SSE frame that `stream_response` yields
verbatim at the transition. -/
def handoffNotice : String :=
  "data: \x7b\"type\": \"handoff_required\", \"message\": \"Agent requires your confirmation to proceed. Please respond with 'yes' or 'no'.\"\x7d\n\n"

/-- `isinstance(event, dict) and event.get("handoff_required")` — the outer
loop's marker test. -/
def hasHandoffFlag : PyVal → Bool
  | .dict d =>
    match dictGet d "handoff_required" with
    | some v => pyTruthy v
    | none => false
  | _ => false

/-- The per-event loop body of `stream_response`: first component is the
yielded SSE frames, second the `response_parts` text accumulator kept for
memory persistence.  A marker yields the synthetic notice and sets the
outer flag; once the flag is set non-marker events are skipped; otherwise
the event is formatted and its text collected. -/
def streamGo : Bool → List PyVal → List String × List String
  | _, [] => ([], [])
  | handoff_detected, e :: rest =>
    if hasHandoffFlag e then
      let p := streamGo true rest
      (handoffNotice :: p.1, p.2)
    else if handoff_detected then
      streamGo handoff_detected rest
    else
      let formatted := formatDiyResponse e
      let text := extractTextFromEvent e
      let p := streamGo handoff_detected rest
      (formatted :: p.1, if text ≠ "" then text :: p.2 else p.2)

/-- The SSE frames `stream_response` yields for a given raw agent event
list (the composition of both loops; context fetching/saving and the model
construction around the loop touch only external stores). -/
def streamResponse (events : List PyVal) : List String :=
  (streamGo false (executeAgentStreaming events)).1

/-! ## `parse_execution_log` (identical in both execution handler files) -/

/-- One parsed remediation action.  (The source also stamps each action with
`datetime.now().isoformat()`; the wall-clock value is not modelled.) -/
structure ActionEntry where
  description : String
  status : String
deriving DecidableEq

/-- The `summary` counters of the parsed execution log. -/
structure ExecSummary where
  total_actions : Nat
  successful : Nat
  failed : Nat
  skipped : Nat
deriving DecidableEq

/-- The structured result of `parse_execution_log`. -/
structure ExecutionLog where
  actions : List ActionEntry
  summary : ExecSummary
deriving DecidableEq

/-- The line loop of `parse_execution_log`: a line containing `action:` or
`executing:` (case-insensitively) opens a new action with status `unknown`;
while an action is open, keyword/icon lines set its status and bump the
matching counter; other lines are skipped. -/
def pelGo : List String → Option ActionEntry → List ActionEntry → ExecSummary →
    List ActionEntry × ExecSummary
  | [], current_action, acc, s =>
    (match current_action with
     | some a => acc ++ [a]
     | none => acc, s)
  | line :: rest, current_action, acc, s =>
    let line_lower := pyLower line
    if pyContains line_lower "action:" || pyContains line_lower "executing:" then
      let acc1 := match current_action with
        | some a => acc ++ [a]
        | none => acc
      pelGo rest (some { description := pyStrip line, status := "unknown" }) acc1 s
    else
      match current_action with
      | none => pelGo rest none acc s
      | some a =>
        if pyContains line_lower "success" || pyContains line "✓" || pyContains line "✅" then
          pelGo rest (some { a with status := "success" }) acc
            { s with successful := s.successful + 1 }
        else if pyContains line_lower "fail" || pyContains line_lower "error" ||
            pyContains line "✗" || pyContains line "❌" then
          pelGo rest (some { a with status := "failed" }) acc
            { s with failed := s.failed + 1 }
        else if pyContains line_lower "skip" then
          pelGo rest (some { a with status := "skipped" }) acc
            { s with skipped := s.skipped + 1 }
        else
          pelGo rest (some a) acc s

/-- `parse_execution_log(execution_response)`. -/
def parseExecutionLog (execution_response : String) : ExecutionLog :=
  let p := pelGo (pySplitLines execution_response) none []
    { total_actions := 0, successful := 0, failed := 0, skipped := 0 }
  { actions := p.1, summary := { p.2 with total_actions := p.1.length } }

/-! ## Alert records, stores, Lambda responses -/

/-- The `details` stored by `execute_with_agent`: the parsed log on
success, the error message on failure (the accompanying
`traceback.format_exc()` text is runtime introspection, not modelled). -/
inductive ExecDetails where
  | parsed : ExecutionLog → ExecDetails
  | errorInfo : String → ExecDetails
deriving DecidableEq

/-- The result dict of `execute_with_agent`. -/
structure ExecResult where
  success : Bool
  execution_log : String
  details : ExecDetails
deriving DecidableEq

/-- The persisted Alert record, restricted to the attributes the embedded
handlers read or write.  Attributes the creating monitor always writes
(`approval_status`, `execution_status`, `agent_analysis`) are plain fields;
the rest are optional. -/
structure Alert where
  approval_status : String
  execution_status : String
  domain : Option String
  agent_session_id : Option String
  s3_analysis_key : Option String
  agent_analysis : String
  approved_by : Option String
  approved_at : Option String
  executed_at : Option String
  execution_log : Option String
  execution_details : Option ExecDetails
deriving DecidableEq

/-- The DynamoDB alerts table, as a key → item map. -/
def AlertStore : Type := String → Option Alert

/-- An API-Gateway / Lambda proxy response: status code and the
`json.dumps`-rendered body. -/
structure LambdaResponse where
  statusCode : Nat
  body : String
deriving DecidableEq

/-- Build a response with a JSON body. -/
def mkResp (code : Nat) (body : Json) : LambdaResponse :=
  { statusCode := code, body := dumps body }

/-! ## `src/lambdas/lambda_execution_handler.py` (SNS-triggered) -/

/-- The external world of the SNS execution handler: environment
configuration, S3/DynamoDB outcomes, the Bedrock agent call outcome, and
the wall clock readings the handler embeds in what it writes. -/
structure ExecEnv where
  tableConfigured : Bool
  bucket : Option String
  s3Get : String → Option String
  s3PutOk : Bool
  agentOutcome : Except String String
  dateStr : String
  timeStr : String
  nowIso : String

/-- `get_alert_from_dynamodb`: `None` when the table is unconfigured or the
item is absent. -/
def getAlertFromDynamo (env : ExecEnv) (store : AlertStore) (alert_id : String) : Option Alert :=
  if env.tableConfigured then store alert_id else none

/-- `execute_with_agent` (same body in both execution handler files): the
prompt built from the analysis is consumed by the external agent call,
whose outcome is the model input; success wraps the transcript and its
parsed log, an exception wraps the error message. -/
def executeWithAgent (agentOutcome : Except String String) : ExecResult :=
  match agentOutcome with
  | .ok execution_response =>
    { success := true
      execution_log := execution_response
      details := .parsed (parseExecutionLog execution_response) }
  | .error e =>
    { success := false
      execution_log := "Execution failed: " ++ e
      details := .errorInfo e }

/-- `update_execution_status`: writes execution status, timestamp, log and
details onto the stored item (no-op when the table is unconfigured — the
handler ignores the returned flag either way). -/
def updateExecutionStatus (env : ExecEnv) (store : AlertStore) (alert_id status execution_log : String)
    (details : ExecDetails) : AlertStore :=
  if env.tableConfigured then
    fun x =>
      if x = alert_id then
        (store x).map fun a =>
          { a with execution_status := status, executed_at := some env.nowIso,
                   execution_log := some execution_log, execution_details := some details }
      else store x
  else store

/-- `upload_execution_results`: S3 key
`executions/{date}/{domain}/{time}-{alert_id}.md`, or `None` when no bucket
is configured or the put fails.  (The uploaded markdown body is an external
artifact; only the returned key is observable downstream.) -/
def uploadExecutionResults (env : ExecEnv) (alert_id : String) (domain : Option String) :
    Option String :=
  match env.bucket with
  | none => none
  | some _ =>
    if env.s3PutOk then
      some ("executions/" ++ env.dateStr ++ "/" ++ optStr domain ++ "/" ++
        env.timeStr ++ "-" ++ alert_id ++ ".md")
    else none

/-- `lambda_handler` of the SNS execution handler, on an execution request
already parsed down to its `alert_id` (absent or empty → the 400 branch).
Returns the response, the resulting store, and whether the agent execution
was invoked.  Completion notifications go to external webhooks only. -/
def executionLambdaHandler (env : ExecEnv) (store : AlertStore) (alert_id? : Option String) :
    LambdaResponse × AlertStore × Bool :=
  match alert_id? with
  | none => (mkResp 400 (.obj [("error", .str "alert_id is required")]), store, false)
  | some alert_id =>
    if alert_id = "" then
      (mkResp 400 (.obj [("error", .str "alert_id is required")]), store, false)
    else
      match getAlertFromDynamo env store alert_id with
      | none => (mkResp 404 (.obj [("error", .str "Alert not found")]), store, false)
      | some alert_data =>
        if alert_data.approval_status ≠ "approved" then
          (mkResp 400 (.obj [("error",
             .str ("Alert is " ++ alert_data.approval_status ++ ", not approved"))]),
           store, false)
        else
          let execution_result := executeWithAgent env.agentOutcome
          let status := if execution_result.success then "completed" else "failed"
          let store1 := updateExecutionStatus env store alert_id status
            execution_result.execution_log execution_result.details
          let execution_s3_key := uploadExecutionResults env alert_id alert_data.domain
          (mkResp 200 (.obj [("message", .str "Execution completed"),
                             ("alert_id", .str alert_id),
                             ("success", .bool execution_result.success),
                             ("execution_log_url",
                              .str ("s3://" ++ optStr env.bucket ++ "/" ++ optStr execution_s3_key))]),
           store1, true)

/-! ## `src/lambdas/lambda_execution_handler_copy.py` (`GET /execute`) -/

/-- The query parameters of the `GET /execute` trigger. -/
structure QueryParams where
  alert_id : Option String
  session_id : Option String
  service_name : Option String
  s3_key : Option String
  asyncParam : Option String
deriving DecidableEq

/-- External world of the `GET /execute` handler: S3 reads/writes, the
agent call outcome, whether the asynchronous self-invocation succeeds (and
the exception text when it does not), and the clock readings. -/
structure CopyEnv where
  s3Get : String → Option String
  agentOutcome : Except String String
  selfInvokeOk : Bool
  selfInvokeErr : String
  bucket : Option String
  s3PutOk : Bool
  dateStr : String
  timeStr : String

/-- The copy handler's `upload_execution_results`: like the SNS variant but
sanitizing the service name (`/`, `:`, spaces → `-`) in the key. -/
def copyUploadExecutionResults (env : CopyEnv) (alert_id service_name : String) : Option String :=
  match env.bucket with
  | none => none
  | some _ =>
    if env.s3PutOk then
      some ("executions/" ++ env.dateStr ++ "/" ++
        pyReplace (pyReplace (pyReplace service_name "/" "-") ":" "-") " " "-" ++ "/" ++
        env.timeStr ++ "-" ++ alert_id ++ ".md")
    else none

/-- `lambda_handler` of the `GET /execute` variant.  `params? = none`
models a missing/empty `queryStringParameters` dict.  Second component:
whether the agent execution was invoked.  Note: this handler never consults
the alert store — when `async=true` it calls `execute_with_agent` with
`is_approved=True` ("Always auto-execute") unconditionally; when not async
it re-invokes itself asynchronously and acknowledges with 202. -/
def copyExecutionLambdaHandler (env : CopyEnv) (params? : Option QueryParams) :
    LambdaResponse × Bool :=
  match params? with
  | none => (mkResp 400 (.obj [("error", .str "Query parameters required")]), false)
  | some params =>
    let is_async := params.asyncParam = some "true"
    match params.alert_id with
    | none => (mkResp 400 (.obj [("error", .str "alert_id is required")]), false)
    | some alert_id =>
      if alert_id = "" then
        (mkResp 400 (.obj [("error", .str "alert_id is required")]), false)
      else
        match params.session_id with
        | none => (mkResp 400 (.obj [("error", .str "session_id is required")]), false)
        | some session_id =>
          if session_id = "" then
            (mkResp 400 (.obj [("error", .str "session_id is required")]), false)
          else
            let service_name := params.service_name.getD "unknown-service"
            if !is_async then
              if env.selfInvokeOk then
                (mkResp 202 (.obj [("status", .str "accepted"),
                                   ("message", .str "Execution started. Results will be saved to S3."),
                                   ("alert_id", .str alert_id),
                                   ("service_name", .str service_name),
                                   ("session_id", .str session_id)]), false)
              else
                (mkResp 500 (.obj [("status", .str "error"),
                                   ("message", .str ("Failed to trigger execution: " ++ env.selfInvokeErr))]),
                 false)
            else
              let execution_result := executeWithAgent env.agentOutcome
              let execution_s3_key := copyUploadExecutionResults env alert_id service_name
              let status_text := if execution_result.success then "SUCCESS" else "FAILED"
              (mkResp 200 (.obj [("status", .str status_text),
                                 ("alert_id", .str alert_id),
                                 ("service_name", .str service_name),
                                 ("session_id", .str session_id),
                                 ("s3_key", .str (optStr execution_s3_key)),
                                 ("message", .str ("Execution " ++ pyLower status_text ++ ". Results saved to S3."))]),
               true)

/-! ## `src/lambdas/lambda_approval_handler.py` -/

/-- The two Slack signature headers; the timestamp is modelled after the
`int(...)` conversion the source applies to the header string. -/
structure SlackHeaders where
  signature : Option String
  timestamp : Option Int
deriving DecidableEq

/-- `verify_slack_signature`.  `hmacHex secret msg` stands for
`hmac.new(secret.encode(), msg.encode(), hashlib.sha256).hexdigest()`
(an external primitive).  No secret configured → skip verification and
accept; missing or empty headers → reject; timestamp offset beyond 300
seconds → reject; otherwise accept exactly on signature equality
(`hmac.compare_digest` — the constant-time execution of that comparison is
a timing property outside the model, its result is string equality). -/
def verifySlackSignature (hmacHex : String → String → String) (secret? : Option String)
    (headers : SlackHeaders) (body : String) (now : Int) : Bool :=
  match secret? with
  | none => true
  | some secret =>
    if secret = "" then true
    else
      match headers.signature, headers.timestamp with
      | some sig, some ts =>
        if sig = "" then false
        else if (now - ts).natAbs > 300 then false
        else decide (("v0=" ++ hmacHex secret ("v0:" ++ toString ts ++ ":" ++ body)) = sig)
      | _, _ => false

/-- One interactive action of the Slack payload:
`action.get("action_id", "")` and `action.get("value")` (the alert id). -/
structure SlackAction where
  action_id : String
  value : Option String
deriving DecidableEq

/-- `payload.get("user", {})` with its defaulted fields. -/
structure SlackUser where
  name : String
  id : String
deriving DecidableEq

/-- The decoded interactive payload (the `response_url` only feeds the
external Slack message update). -/
structure SlackPayload where
  actions : List SlackAction
  user : SlackUser
deriving DecidableEq

/-- An inbound approval-callback event: the signature headers, the raw body
the signature covers, and the payload decoded from that body by
`parse_qs` + `json.loads` (standard-library decoding kept abstract;
`none` models an undecodable body, which the handler's `except` turns into
a 500). -/
structure SlackEvent where
  headers : SlackHeaders
  body : String
  payload : Option SlackPayload
deriving DecidableEq

/-- Environment of the approval handler. -/
structure ApprovalEnv where
  slackSigningSecret : Option String
  tableConfigured : Bool
deriving DecidableEq

/-- `get_alert_data`. -/
def getAlertData (env : ApprovalEnv) (store : AlertStore) (alert_id : String) : Option Alert :=
  if env.tableConfigured then store alert_id else none

/-- `update_alert_status`: sets `approval_status`, `approved_by`,
`approved_at = str(datetime.now())` (the clock reading is the `nowStr`
argument); no-op when the table is unconfigured. -/
def updateAlertStatus (env : ApprovalEnv) (store : AlertStore)
    (alert_id status user_id nowStr : String) : AlertStore :=
  if env.tableConfigured then
    fun x =>
      if x = alert_id then
        (store x).map fun a =>
          { a with approval_status := status, approved_by := some user_id,
                   approved_at := some nowStr }
      else store x
  else store

/-- The chunking loop of the `view_full_analysis` branch: greedy packing of
lines into ≤ 2900-character chunks. -/
def chunkGo : List String → List String → Nat → List String
  | [], current_chunk, _ =>
    if current_chunk.isEmpty then [] else [joinSep "\n" current_chunk]
  | line :: rest, current_chunk, current_length =>
    let line_length := line.length + 1
    if current_length + line_length > 2900 ∧ current_chunk ≠ [] then
      joinSep "\n" current_chunk :: chunkGo rest [line] line_length
    else
      chunkGo rest (current_chunk ++ [line]) (current_length + line_length)

/-- Chunk a long analysis; short analyses stay whole. -/
def chunkAnalysis (full_analysis : String) : List String :=
  if full_analysis.length > 2900 then chunkGo (pySplitLines full_analysis) [] 0
  else [full_analysis]

/-- Grouping worker for Python's `"{:,}"` thousands formatting (input:
reversed digit list). -/
def commaRev : Nat → List Char → List Char
  | _, [] => []
  | i, d :: ds =>
    (if i ≠ 0 ∧ i % 3 = 0 then [',', d] else [d]) ++ commaRev (i + 1) ds

/-- Python `f"{n:,}"` for a natural number. -/
def pyCommaFmt (n : Nat) : String :=
  ⟨(commaRev 0 (Nat.repr n).data.reverse).reverse⟩

/-- The section blocks for the analysis chunks, with dividers between
consecutive chunks. -/
def sectionBlocks : List String → List Json
  | [] => []
  | [c] => [.obj [("type", .str "section"),
                  ("text", .obj [("type", .str "mrkdwn"), ("text", .str c)])]]
  | c :: c2 :: cs =>
    .obj [("type", .str "section"),
          ("text", .obj [("type", .str "mrkdwn"), ("text", .str c)])] ::
    .obj [("type", .str "divider")] :: sectionBlocks (c2 :: cs)

/-- The full block list of the `view_full_analysis` response (header,
chunk sections with dividers, context footer).  The source's literals carry
mojibake icon prefixes (double-encoded emoji); they are reproduced
code-point-for-code-point. -/
def analysisBlocks (domain alert_id full_analysis : String) : Json :=
  .arr (
    .obj [("type", .str "header"),
          ("text", .obj [("type", .str "plain_text"),
                         ("text", .str ("\u00F0\u0178\u00A4\u2013 Full AI Analysis - " ++ domain)),
                         ("emoji", .bool true)])] ::
    (sectionBlocks (chunkAnalysis full_analysis) ++
     [.obj [("type", .str "context"),
            ("elements", .arr [.obj [("type", .str "mrkdwn"),
              ("text", .str ("\u00F0\u0178\u201C\u0160 Total length: " ++ pyCommaFmt full_analysis.length ++
                " characters | Alert ID: `" ++ alert_id ++ "`"))]])]]))

/-- `lambda_handler` of the approval handler: verify the Slack signature,
decode the payload, fetch the alert; an alert no longer `pending` gets the
200 ephemeral no-op; otherwise dispatch on the action id
(`approve_remediation` / `dismiss_alert` / `view_full_analysis`).
`execute_remediation_actions` and `update_slack_message` touch only
external services (CloudFront/SNS/webhooks) and never the alert store. -/
def approvalLambdaHandler (hmacHex : String → String → String) (env : ApprovalEnv)
    (event : SlackEvent) (store : AlertStore) (now : Int) (nowStr : String) :
    LambdaResponse × AlertStore :=
  if !(verifySlackSignature hmacHex env.slackSigningSecret event.headers event.body now) then
    (mkResp 401 (.obj [("error", .str "Invalid signature")]), store)
  else
    match event.payload with
    | none => (mkResp 500 (.obj [("error", .str "payload parse error")]), store)
    | some payload =>
      match payload.actions with
      | [] => (mkResp 400 (.obj [("error", .str "No actions found")]), store)
      | action :: _ =>
        let action_id := action.action_id
        match (match action.value with
               | some alert_id => (getAlertData env store alert_id).map fun a => (alert_id, a)
               | none => none) with
        | none => (mkResp 404 (.obj [("error", .str "Alert not found or expired")]), store)
        | some (alert_id, alert_data) =>
          if alert_data.approval_status ≠ "pending" then
            (mkResp 200 (.obj [("text",
               .str ("\u00E2\u0161\u00A0\u00EF\u00B8 This alert has already been " ++
                 alert_data.approval_status ++ ".")),
               ("response_type", .str "ephemeral")]), store)
          else if pyContains action_id "approve_remediation" then
            let store1 := updateAlertStatus env store alert_id "approved" payload.user.id nowStr
            (mkResp 200 (.obj [("text", .str "\u00E2\u0153\u2026 Remediation approved and executed!"),
                               ("response_type", .str "ephemeral")]), store1)
          else if pyContains action_id "dismiss_alert" then
            let store1 := updateAlertStatus env store alert_id "dismissed" payload.user.id nowStr
            (mkResp 200 (.obj [("text", .str "\u00E2\u0152 Alert dismissed."),
                               ("response_type", .str "ephemeral")]), store1)
          else if pyContains action_id "view_full_analysis" then
            (mkResp 200 (.obj [("blocks",
               analysisBlocks (alert_data.domain.getD "Unknown") alert_id alert_data.agent_analysis),
               ("response_type", .str "ephemeral"),
               ("replace_original", .bool false)]), store)
          else
            (mkResp 400 (.obj [("error", .str "Unknown action")]), store)

/-! ## Concrete fixtures used by witnesses and counterexamples -/

/-- A text-delta event of the nested dict (agent) shape. -/
def textDeltaEvent (t : String) : PyVal :=
  .dict [("event", .dict [("contentBlockDelta", .dict [("delta", .dict [("text", .str t)])])])]

/-- A tool-start event of the nested dict shape. -/
def toolStartEvent (name tid : String) : PyVal :=
  .dict [("event", .dict [("contentBlockStart",
    .dict [("start", .dict [("toolUse",
      .dict [("name", .str name), ("toolUseId", .str tid)])])])])]

/-- A handoff-triggering event: a text delta containing the built-in
confirmation prompt. -/
def hoDeltaEvent : PyVal :=
  textDeltaEvent "Do you want to proceed? [y/*]"

/-- Delta dict `{"text": "hello"}` of the mixed fixture. -/
def mixedDelta : List (String × PyVal) := [("text", .str "hello")]

/-- `contentBlockDelta` dict of the mixed fixture. -/
def mixedCbd : List (String × PyVal) := [("delta", .dict mixedDelta)]

/-- Inner event carrying both a tool-start block and a text delta
(`"hello"`) plus an unrelated field — exercises the priority ordering. -/
def mixedInner : List (String × PyVal) :=
  [("contentBlockStart", .dict [("start", .dict [("toolUse",
      .dict [("name", .str "ns___x"), ("toolUseId", .str "id-1")])])]),
   ("contentBlockDelta", .dict mixedCbd),
   ("other", .bool true)]

/-- Outer dict of the mixed fixture. -/
def mixedOuter : List (String × PyVal) := [("event", .dict mixedInner)]

/-- `toolUse` dict of the long-identifier tool fixture. -/
def toolTu : List (String × PyVal) :=
  [("name", .str "ns___ec2_list_instances"),
   ("toolUseId", .str "tooluse-0123456789abcdefghij")]

/-- `start` dict of the tool fixture. -/
def toolStartD : List (String × PyVal) := [("toolUse", .dict toolTu)]

/-- `contentBlockStart` dict of the tool fixture. -/
def toolCbs : List (String × PyVal) := [("start", .dict toolStartD)]

/-- Inner event of the tool fixture. -/
def toolInner : List (String × PyVal) := [("contentBlockStart", .dict toolCbs)]

/-- Outer dict of the tool fixture. -/
def toolOuter : List (String × PyVal) := [("event", .dict toolInner)]

/-- A tool-start event with a namespaced name and a long tool-use
identifier. -/
def longToolEvent : PyVal := .dict toolOuter

/-- A pending alert. -/
def sampleAlert : Alert :=
  { approval_status := "pending", execution_status := "not_started",
    domain := some "svc", agent_session_id := some "sess-1",
    s3_analysis_key := none, agent_analysis := "analysis text",
    approved_by := none, approved_at := none, executed_at := none,
    execution_log := none, execution_details := none }

/-- A store holding only the pending alert `a1`. -/
def sampleStore : AlertStore :=
  fun i => if i = "a1" then some sampleAlert else none

/-- A Slack payload approving alert `a1`. -/
def sampleApprovalPayload : SlackPayload :=
  { actions := [{ action_id := "approve_remediation_button", value := some "a1" }],
    user := { name := "User", id := "u1" } }

/-- A callback event carrying that payload (no signature headers — paired
with an unconfigured signing secret). -/
def sampleApprovalEvent : SlackEvent :=
  { headers := { signature := none, timestamp := none }, body := "",
    payload := some sampleApprovalPayload }

/-- Approval environment: no signing secret, table configured. -/
def sampleApprovalEnv : ApprovalEnv :=
  { slackSigningSecret := none, tableConfigured := true }

/-- Execution environment for the SNS handler fixtures. -/
def sampleExecEnv : ExecEnv :=
  { tableConfigured := true, bucket := some "bucket", s3Get := fun _ => none,
    s3PutOk := true, agentOutcome := .ok "done", dateStr := "2025-01-01",
    timeStr := "00-00-00", nowIso := "2025-01-01T00:00:00" }

/-- Environment for the `GET /execute` handler fixtures. -/
def sampleCopyEnv : CopyEnv :=
  { s3Get := fun _ => none, agentOutcome := .ok "Action: fix\nSuccess",
    selfInvokeOk := true, selfInvokeErr := "err", bucket := some "bucket",
    s3PutOk := true, dateStr := "2025-01-01", timeStr := "00-00-00" }

/-- A stand-in HMAC function for witnesses. -/
def constHmac : String → String → String := fun _ _ => "0abc"

/-! # Theorems -/

/-! ## C5 — missing signing secret skips verification -/

/-- C5: when the signing-secret configuration value is absent,
`verify_slack_signature` returns `True` for every request — the signature
and timestamp checks are skipped entirely. -/
theorem verify_accepts_all_without_secret :
    ∀ (hmacHex : String → String → String) (headers : SlackHeaders)
      (body : String) (now : Int),
      verifySlackSignature hmacHex none headers body now = true := by
  intro hmacHex headers body now
  rfl

/-! ## C6 — the stop-word example actually hits the short-prompt fallback -/

/-- C6 counterexample: on the prompt
`"Can you please show me my EC2 instances"` only two tokens survive the
filter, so `extract_tool_query` falls back to `prompt[:100]` and returns the
raw prompt verbatim — whose token sequence still contains the stop words
`"you"`, `"please"`, `"me"`, `"my"` (and `"Can"`), contradicting the claimed
exclusion. -/
theorem extract_tool_query_example_counterexample :
    extractToolQuery "Can you please show me my EC2 instances" =
      "Can you please show me my EC2 instances" ∧
    "you" ∈ pySplitWs (extractToolQuery "Can you please show me my EC2 instances") ∧
    "please" ∈ pySplitWs (extractToolQuery "Can you please show me my EC2 instances") ∧
    "me" ∈ pySplitWs (extractToolQuery "Can you please show me my EC2 instances") ∧
    "my" ∈ pySplitWs (extractToolQuery "Can you please show me my EC2 instances") := by
  decide

/-- C6 amended: the token filter applied to that prompt yields exactly
`["ec2", "instances"]` — excluding the stop words and keeping `"ec2"` and
`"instances"` — but since fewer than 3 tokens remain, `extract_tool_query`
returns the first 100 characters of the raw prompt verbatim (here the whole
prompt), not the token sequence. -/
theorem extract_tool_query_example_amended :
    keyWordsOf "Can you please show me my EC2 instances" = ["ec2", "instances"] ∧
    extractToolQuery "Can you please show me my EC2 instances" =
      "Can you please show me my EC2 instances" := by
  decide

/-! ## C10 — transcript parsing -/

/-- C10: `parse_execution_log` on
`"Action: restart service\nSuccess\nAction: clear cache\nFailed"` yields two
actions with statuses `success` and `failed` and summary
`{total: 2, successful: 1, failed: 1, skipped: 0}`; an action followed by no
status keyword stays `unknown`. -/
theorem parse_execution_log_example :
    parseExecutionLog "Action: restart service\nSuccess\nAction: clear cache\nFailed" =
      { actions := [{ description := "Action: restart service", status := "success" },
                    { description := "Action: clear cache", status := "failed" }],
        summary := { total_actions := 2, successful := 1, failed := 1, skipped := 0 } } ∧
    (parseExecutionLog "Action: reboot server\nno status keyword here").actions =
      [{ description := "Action: reboot server", status := "unknown" }] := by
  decide

/-! ## C4 — signature verification -/

/-- A `"v0="`-prefixed string is never empty. -/
theorem v0_ne_empty (x : String) : "v0=" ++ x ≠ "" := by
  intro h
  have h2 := congrArg String.data h
  simp [String.data_append] at h2

/-- C4: with a configured secret and both headers present, verification
succeeds exactly when the timestamp is within 300 seconds of the current
time and the presented signature equals `"v0=" +` the HMAC-SHA256 hex
digest of `"v0:{timestamp}:{body}"` under the secret (`hmacHex` stands for
that external digest primitive; `hmac.compare_digest` decides exactly this
string equality — its constant-time execution is a timing property outside
the model); in particular a timestamp 301 seconds old is rejected
regardless of the signature. -/
theorem verify_slack_signature_spec :
    ∀ (hmacHex : String → String → String) (secret sig body : String) (ts now : Int),
      secret ≠ "" →
      (verifySlackSignature hmacHex (some secret) ⟨some sig, some ts⟩ body now = true ↔
        (now - ts).natAbs ≤ 300 ∧
        sig = "v0=" ++ hmacHex secret ("v0:" ++ toString ts ++ ":" ++ body)) ∧
      ((now - ts).natAbs = 301 →
        verifySlackSignature hmacHex (some secret) ⟨some sig, some ts⟩ body now = false) := by
  intro hmacHex secret sig body ts now hsec
  constructor
  · by_cases hempty : sig = ""
    · subst hempty
      simp [verifySlackSignature, hsec]
      exact fun _ h => v0_ne_empty _ h.symm
    · by_cases hage : (now - ts).natAbs > 300
      · simp [verifySlackSignature, hsec, hempty, hage]
      · simp [verifySlackSignature, hsec, hempty, hage, eq_comm]
        omega
  · intro h301
    by_cases hempty : sig = ""
    · simp [verifySlackSignature, hsec, hempty]
    · have : (now - ts).natAbs > 300 := by omega
      simp [verifySlackSignature, hsec, hempty, this]

/-- C4 witness: under secret `"shh"` the exactly-correct signature for
timestamp 0 is still rejected when the current time is 301. -/
theorem verify_slack_signature_spec_witness :
    ("shh" : String) ≠ "" ∧
    verifySlackSignature constHmac (some "shh")
      ⟨some ("v0=" ++ constHmac "shh" ("v0:" ++ toString (0 : Int) ++ ":" ++ "payload=x")),
       some 0⟩ "payload=x" 301 = false :=
  ⟨by decide,
   (verify_slack_signature_spec constHmac "shh"
      ("v0=" ++ constHmac "shh" ("v0:" ++ toString (0 : Int) ++ ":" ++ "payload=x"))
      "payload=x" 0 301 (by decide)).2 (by decide)⟩

/-! ## C2 — execution requires approval -/

/-- C2 counterexample: the `GET /execute` (async variant) handler never
consults the alert's `approval_status`.  With a store whose only alert
`a1` is still `pending`, the async call executes anyway: the agent is
invoked (second component `true`) and the handler answers 200, not a
rejection. -/
theorem execution_approval_counterexample :
    (sampleStore "a1").map Alert.approval_status = some "pending" ∧
    (copyExecutionLambdaHandler sampleCopyEnv
        (some { alert_id := some "a1", session_id := some "s1",
                service_name := some "svc", s3_key := none,
                asyncParam := some "true" })).2 = true ∧
    (copyExecutionLambdaHandler sampleCopyEnv
        (some { alert_id := some "a1", session_id := some "s1",
                service_name := some "svc", s3_key := none,
                asyncParam := some "true" })).1.statusCode = 200 := by
  refine ⟨rfl, rfl, rfl⟩

/-- C2 amended: on the SNS-triggered execution handler the guard holds —
an execution request for an alert whose `approval_status` is not
`approved` is answered with the distinct 400 error body, the store is
unchanged and the agent is never invoked.  The `GET /execute` handler
performs no such check (see the counterexample): it executes with
`is_approved=True` unconditionally (it does not write `execution_status`
at all — its DynamoDB use is commented out). -/
theorem execution_requires_approval :
    ∀ (env : ExecEnv) (store : AlertStore) (alert_id : String) (alert : Alert),
      env.tableConfigured = true →
      store alert_id = some alert →
      alert_id ≠ "" →
      alert.approval_status ≠ "approved" →
      executionLambdaHandler env store (some alert_id) =
        (mkResp 400 (.obj [("error",
           .str ("Alert is " ++ alert.approval_status ++ ", not approved"))]),
         store, false) := by
  intro env store alert_id alert htab hstore hid hstatus
  simp [executionLambdaHandler, getAlertFromDynamo, htab, hstore, hid, hstatus]

/-- C2 witness: the rejection on the concrete pending alert `a1`. -/
theorem execution_requires_approval_witness :
    sampleExecEnv.tableConfigured = true ∧
    sampleStore "a1" = some sampleAlert ∧
    ("a1" : String) ≠ "" ∧
    sampleAlert.approval_status ≠ "approved" ∧
    executionLambdaHandler sampleExecEnv sampleStore (some "a1") =
      (mkResp 400 (.obj [("error",
         .str ("Alert is " ++ sampleAlert.approval_status ++ ", not approved"))]),
       sampleStore, false) :=
  ⟨rfl, rfl, by decide, by decide,
   execution_requires_approval sampleExecEnv sampleStore "a1" sampleAlert rfl rfl
     (by decide) (by decide)⟩

/-! ## C3 — approval is single-use -/

/-- C3: on a pending alert, an approval callback returns the success
response and transitions the stored record to `approved`; any later
verified callback for the same alert id (approval, denial or anything
else) gets the 200 ephemeral no-op message and the store — hence the
stored `approval_status` — is unchanged. -/
theorem approval_single_use :
    ∀ (hmacHex : String → String → String) (env : ApprovalEnv) (event : SlackEvent)
      (store : AlertStore) (now : Int) (nowStr : String) (payload : SlackPayload)
      (action : SlackAction) (rest : List SlackAction) (alert_id : String) (alert : Alert),
      verifySlackSignature hmacHex env.slackSigningSecret event.headers event.body now = true →
      event.payload = some payload →
      payload.actions = action :: rest →
      action.value = some alert_id →
      env.tableConfigured = true →
      store alert_id = some alert →
      alert.approval_status = "pending" →
      pyContains action.action_id "approve_remediation" = true →
      (approvalLambdaHandler hmacHex env event store now nowStr).1 =
        mkResp 200 (.obj [("text", .str "\u00E2\u0153\u2026 Remediation approved and executed!"),
                          ("response_type", .str "ephemeral")]) ∧
      (approvalLambdaHandler hmacHex env event store now nowStr).2 alert_id =
        some { alert with approval_status := "approved",
                          approved_by := some payload.user.id,
                          approved_at := some nowStr } ∧
      (∀ (event2 : SlackEvent) (now2 : Int) (nowStr2 : String) (payload2 : SlackPayload)
         (action2 : SlackAction) (rest2 : List SlackAction),
        verifySlackSignature hmacHex env.slackSigningSecret event2.headers event2.body now2 = true →
        event2.payload = some payload2 →
        payload2.actions = action2 :: rest2 →
        action2.value = some alert_id →
        approvalLambdaHandler hmacHex env event2
            ((approvalLambdaHandler hmacHex env event store now nowStr).2) now2 nowStr2 =
          (mkResp 200 (.obj [("text",
             .str "\u00E2\u0161\u00A0\u00EF\u00B8 This alert has already been approved."),
             ("response_type", .str "ephemeral")]),
           (approvalLambdaHandler hmacHex env event store now nowStr).2)) := by
  intro hmacHex env event store now nowStr payload action rest alert_id alert
  intro hver hpay hact hval htab hstore hpending happrove
  have h1 : approvalLambdaHandler hmacHex env event store now nowStr =
      (mkResp 200 (.obj [("text", .str "\u00E2\u0153\u2026 Remediation approved and executed!"),
                         ("response_type", .str "ephemeral")]),
       updateAlertStatus env store alert_id "approved" payload.user.id nowStr) := by
    simp [approvalLambdaHandler, hver, hpay, hact, hval, htab, hstore, hpending, happrove,
          getAlertData]
  have hstore2 : (approvalLambdaHandler hmacHex env event store now nowStr).2 alert_id =
      some { alert with approval_status := "approved",
                        approved_by := some payload.user.id,
                        approved_at := some nowStr } := by
    rw [h1]
    simp [updateAlertStatus, htab, hstore]
  have hS : updateAlertStatus env store alert_id "approved" payload.user.id nowStr alert_id =
      some { alert with approval_status := "approved",
                        approved_by := some payload.user.id,
                        approved_at := some nowStr } := by
    simp [updateAlertStatus, htab, hstore]
  refine ⟨by rw [h1], hstore2, ?_⟩
  intro event2 now2 nowStr2 payload2 action2 rest2 hver2 hpay2 hact2 hval2
  rw [h1]
  simp [approvalLambdaHandler, hver2, hpay2, hact2, hval2, htab, getAlertData, hS]

/-- C3 witness: the concrete first and second approval calls on alert
`a1`. -/
theorem approval_single_use_witness :
    (approvalLambdaHandler constHmac sampleApprovalEnv sampleApprovalEvent sampleStore 0 "t").2 "a1" =
      some { sampleAlert with approval_status := "approved",
                              approved_by := some "u1", approved_at := some "t" } ∧
    approvalLambdaHandler constHmac sampleApprovalEnv sampleApprovalEvent
        ((approvalLambdaHandler constHmac sampleApprovalEnv sampleApprovalEvent sampleStore 0 "t").2)
        0 "t2" =
      (mkResp 200 (.obj [("text",
         .str "\u00E2\u0161\u00A0\u00EF\u00B8 This alert has already been approved."),
         ("response_type", .str "ephemeral")]),
       (approvalLambdaHandler constHmac sampleApprovalEnv sampleApprovalEvent sampleStore 0 "t").2) := by
  have h := approval_single_use constHmac sampleApprovalEnv sampleApprovalEvent sampleStore 0 "t"
    sampleApprovalPayload { action_id := "approve_remediation_button", value := some "a1" } []
    "a1" sampleAlert rfl rfl rfl rfl rfl rfl rfl (by decide)
  exact ⟨h.2.1, h.2.2 sampleApprovalEvent 0 "t2" sampleApprovalPayload
    { action_id := "approve_remediation_button", value := some "a1" } [] rfl rfl rfl rfl⟩

/-! ## C7 — extraction priority ordering -/

/-- C7: for every event whose nested content-delta carries the non-empty
text `"hello"`, extraction returns content `"hello"` with `has_text` true —
whatever other fields the outer and inner dicts also carry (the priority-1
branch matches first and extraction stops there). -/
theorem extract_priority_nested_delta :
    ∀ (d inner cbd delta : List (String × PyVal)),
      dictGet d "event" = some (.dict inner) →
      dictGet inner "contentBlockDelta" = some (.dict cbd) →
      dictGet cbd "delta" = some (.dict delta) →
      dictGet delta "text" = some (.str "hello") →
      (extractContentFromEvent (.dict d)).content = "hello" ∧
      (extractContentFromEvent (.dict d)).has_text = true := by
  intro d inner cbd delta h1 h2 h3 h4
  have hp : priorityOneText (.dict d) = some "hello" := by
    simp [priorityOneText, h1, h2, h3, h4]
  constructor
  · simp [extractContentFromEvent, hp]
    rfl
  · simp [extractContentFromEvent, hp]

/-- C7 witness: the mixed fixture also carries a tool-start block and an
unrelated field, yet extraction returns the delta text. -/
theorem extract_priority_nested_delta_witness :
    (dictGet mixedOuter "event" = some (.dict mixedInner) ∧
     dictGet mixedInner "contentBlockDelta" = some (.dict mixedCbd) ∧
     dictGet mixedCbd "delta" = some (.dict mixedDelta) ∧
     dictGet mixedDelta "text" = some (.str "hello")) ∧
    ((extractContentFromEvent (.dict mixedOuter)).content = "hello" ∧
     (extractContentFromEvent (.dict mixedOuter)).has_text = true) :=
  ⟨⟨rfl, rfl, rfl, rfl⟩,
   extract_priority_nested_delta mixedOuter mixedInner mixedCbd mixedDelta rfl rfl rfl rfl⟩

/-! ## C8 — tool-start announcement -/

/-- A list is a (Boolean) prefix of itself followed by anything. -/
theorem isPrefixOf_append_self (l t : List Char) : l.isPrefixOf (l ++ t) = true := by
  induction l with
  | nil => simp [List.isPrefixOf]
  | cons c cs ih => simp [List.isPrefixOf, ih]

/-- A list occurs as a substring of any list embedding it contiguously. -/
theorem isSubList_middle (pre l post : List Char) : isSubList l (pre ++ (l ++ post)) = true := by
  induction pre with
  | nil =>
    cases l with
    | nil => cases post <;> simp [isSubList]
    | cons c cs => simp [isSubList, isPrefixOf_append_self]
  | cons p ps ih =>
    simp only [List.cons_append, isSubList, List.append_eq, ih, Bool.or_true]

/-- `mid in pre + mid + post` always holds. -/
theorem pyContains_middle (pre mid post : String) : pyContains (pre ++ mid ++ post) mid = true := by
  show isSubList mid.data (pre ++ mid ++ post).data = true
  rw [String.data_append, String.data_append, List.append_assoc]
  exact isSubList_middle pre.data mid.data post.data

/-- C8 counterexample: the announcement embeds the tool-use identifier in
full, not a truncated form of it — for the 28-character identifier of the
fixture the whole identifier appears verbatim in the extracted content
(only the debug log line truncates it with `tool_id[:8]`). -/
theorem tool_announcement_truncation_counterexample :
    (extractContentFromEvent longToolEvent).content =
      "\n🔍 Using ec2_list_instances tool...(ID: tooluse-0123456789abcdefghij)\n" ∧
    pyContains (extractContentFromEvent longToolEvent).content
      "tooluse-0123456789abcdefghij" = true := by
  decide

/-- C8 amended: for every tool-start event (no content delta, so the
priority-1.5 branch fires), the extracted content is the announcement built
from the display name with any triple-underscore namespace prefix stripped
— for `"ns___ec2_list_instances"` the stripped name is
`"ec2_list_instances"` without the `"ns___"` prefix — together with the
**full** tool-use identifier (not a truncated form). -/
theorem tool_announcement_amended :
    ∀ (d inner cbs start tu : List (String × PyVal)) (name tid : String),
      dictGet d "event" = some (.dict inner) →
      dictGet inner "contentBlockDelta" = none →
      dictGet inner "contentBlockStart" = some (.dict cbs) →
      dictGet cbs "start" = some (.dict start) →
      dictGet start "toolUse" = some (.dict tu) →
      dictGet tu "name" = some (.str name) →
      dictGet tu "toolUseId" = some (.str tid) →
      (extractContentFromEvent (.dict d)).content =
        processTextFormatting (toolAnnouncement (cleanToolName name) tid) ∧
      cleanToolName "ns___ec2_list_instances" = "ec2_list_instances" ∧
      pyContains (toolAnnouncement (cleanToolName name) tid) tid = true := by
  intro d inner cbs start tu name tid h1 h2 h3 h4 h5 h6 h7
  have hp1 : priorityOneText (.dict d) = none := by
    simp [priorityOneText, h1, h2]
  have hp2 : priorityToolStart (.dict d) =
      some (toolAnnouncement (cleanToolName name) tid) := by
    simp [priorityToolStart, h1, h3, h4, h5, h6, h7]
  refine ⟨?_, by decide, ?_⟩
  · simp [extractContentFromEvent, hp1, hp2]
  · exact pyContains_middle ("\n🔍 Using " ++ cleanToolName name ++ " tool...(ID: ") tid ")\n"

/-- C8 witness: the amended statement at the concrete fixture. -/
theorem tool_announcement_amended_witness :
    (dictGet toolOuter "event" = some (.dict toolInner) ∧
     dictGet toolInner "contentBlockDelta" = none ∧
     dictGet toolInner "contentBlockStart" = some (.dict toolCbs) ∧
     dictGet toolCbs "start" = some (.dict toolStartD) ∧
     dictGet toolStartD "toolUse" = some (.dict toolTu) ∧
     dictGet toolTu "name" = some (.str "ns___ec2_list_instances") ∧
     dictGet toolTu "toolUseId" = some (.str "tooluse-0123456789abcdefghij")) ∧
    ((extractContentFromEvent (.dict toolOuter)).content =
       processTextFormatting (toolAnnouncement (cleanToolName "ns___ec2_list_instances")
         "tooluse-0123456789abcdefghij") ∧
     cleanToolName "ns___ec2_list_instances" = "ec2_list_instances" ∧
     pyContains (toolAnnouncement (cleanToolName "ns___ec2_list_instances")
       "tooluse-0123456789abcdefghij") "tooluse-0123456789abcdefghij" = true) :=
  ⟨⟨rfl, rfl, rfl, rfl, rfl, rfl, rfl⟩,
   tool_announcement_amended toolOuter toolInner toolCbs toolStartD toolTu
     "ns___ec2_list_instances" "tooluse-0123456789abcdefghij" rfl rfl rfl rfl rfl rfl rfl⟩

/-! ## C1 — handoff suppression and the synthetic notice -/

/-- After detection, the inner loop forwards markers for handoff events and
drops everything else. -/
theorem innerStreamGo_true (l : List PyVal) :
    innerStreamGo true l = (l.filter isHandoffEvent).map handoffMarker := by
  induction l with
  | nil => rfl
  | cons e rest ih =>
    by_cases he : isHandoffEvent e
    · simp [innerStreamGo, he, List.filter, ih]
    · simp [innerStreamGo, he, List.filter, ih]

/-- The inner loop forwards the prefix before the first handoff event and
from there on only handoff markers. -/
theorem innerStreamGo_false (l : List PyVal) :
    innerStreamGo false l =
      (l.takeWhile fun e => !isHandoffEvent e) ++
      (l.filter isHandoffEvent).map handoffMarker := by
  induction l with
  | nil => rfl
  | cons e rest ih =>
    by_cases he : isHandoffEvent e
    · simp [innerStreamGo, he, List.takeWhile, List.filter, innerStreamGo_true]
    · simp [innerStreamGo, he, List.takeWhile, List.filter, ih]

/-- A handoff marker always carries the truthy flag. -/
theorem hasHandoffFlag_marker (e : PyVal) : hasHandoffFlag (handoffMarker e) = true := rfl

/-- The outer loop turns every marker into one synthetic notice, whatever
its flag state. -/
theorem streamGo_markers (hs : List PyVal) (b : Bool) :
    (streamGo b (hs.map handoffMarker)).1 = List.replicate hs.length handoffNotice := by
  induction hs generalizing b with
  | nil => rfl
  | cons e rest ih =>
    simp [streamGo, hasHandoffFlag_marker, List.replicate, ih]

/-- The outer loop formats flag-free events and continues. -/
theorem streamGo_plain_head (ns : List PyVal) (tail : List PyVal)
    (h : ∀ e ∈ ns, hasHandoffFlag e = false) :
    (streamGo false (ns ++ tail)).1 =
      ns.map formatDiyResponse ++ (streamGo false tail).1 := by
  induction ns with
  | nil => rfl
  | cons e rest ih =>
    have he : hasHandoffFlag e = false := h e (List.mem_cons_self e rest)
    simp [streamGo, he, ih fun x hx => h x (List.mem_cons_of_mem e hx)]

/-- C1 counterexample: a stream with two handoff-triggering events yields
the synthetic notice twice — the `if _is_handoff_event(event)` branch in
`execute_agent_streaming` ignores `handoff_detected`, so every handoff
event produces a marker, and `stream_response` emits one notice per marker.
The claimed "exactly once" fails. -/
theorem handoff_notice_counterexample :
    streamResponse [hoDeltaEvent, hoDeltaEvent] = [handoffNotice, handoffNotice] ∧
    (streamResponse [hoDeltaEvent, hoDeltaEvent]).count handoffNotice ≠ 1 := by
  decide

/-- C1 amended: for every raw agent stream (whose events do not themselves
carry a `handoff_required` key — raw backend events never do), the pipeline
forwards exactly the formatted events strictly before the first
handoff-triggering event, followed by one synthetic notice **per**
handoff-triggering event in the stream.  In particular zero agent events
are forwarded after the first handoff trigger; the notice is emitted once
when exactly one event triggers, but once per trigger in general. -/
theorem handoff_stream_amended :
    ∀ (events : List PyVal),
      (∀ e ∈ events, hasHandoffFlag e = false) →
      streamResponse events =
        ((events.takeWhile fun e => !isHandoffEvent e).map formatDiyResponse) ++
        List.replicate (events.countP isHandoffEvent) handoffNotice := by
  intro events hflag
  unfold streamResponse executeAgentStreaming
  rw [innerStreamGo_false]
  rw [streamGo_plain_head _ _ fun e he => hflag e (List.takeWhile_subset _ he)]
  rw [streamGo_markers]
  rw [List.countP_eq_length_filter]

/-- C1 witness: the amended equation on a concrete four-event stream with
two triggers. -/
theorem handoff_stream_amended_witness :
    (∀ e ∈ [textDeltaEvent "x", hoDeltaEvent, textDeltaEvent "y", hoDeltaEvent],
       hasHandoffFlag e = false) ∧
    streamResponse [textDeltaEvent "x", hoDeltaEvent, textDeltaEvent "y", hoDeltaEvent] =
      (([textDeltaEvent "x", hoDeltaEvent, textDeltaEvent "y",
         hoDeltaEvent].takeWhile fun e => !isHandoffEvent e).map formatDiyResponse) ++
      List.replicate ([textDeltaEvent "x", hoDeltaEvent, textDeltaEvent "y",
         hoDeltaEvent].countP isHandoffEvent) handoffNotice :=
  ⟨by decide, handoff_stream_amended _ (by decide)⟩

/-! ## C9 — SSE format/extract round-trip -/

/-- Reading back a hex digit recovers the nibble it encodes. -/
theorem hexVal_hexDigitChar {m : Nat} (h : m < 16) :
    hexVal? (hexDigitChar m) = some m := by
  interval_cases m <;> decide

/-- One non-final hex-digit step of the string scanner. -/
theorem parseStrGo_hex_step (acc k : Nat) (h : Char) (v : Nat) (rest : List Char)
    (hv : hexVal? h = some v) (hk : ¬ k = 3) :
    parseStrGo (.hex acc k) (h :: rest) = parseStrGo (.hex (16 * acc + v) (k + 1)) rest := by
  simp only [parseStrGo, hv]
  rw [if_neg hk]

/-- The final hex-digit step decodes the accumulated code point. -/
theorem parseStrGo_hex_last (acc : Nat) (h : Char) (v : Nat) (rest : List Char)
    (hv : hexVal? h = some v) :
    parseStrGo (.hex acc 3) (h :: rest) =
      (parseStrGo .normal rest).map fun p => (Char.ofNat (16 * acc + v) :: p.1, p.2) := by
  simp only [parseStrGo, hv]
  simp

/-- String-body round-trip: scanning the escaped form of `s` up to the
closing quote recovers `s` and the remainder. -/
theorem parseStrGo_escList (s rest : List Char) :
    parseStrGo .normal (escList s ++ ('"' :: rest)) = some (s, rest) := by
  induction s with
  | nil => rfl
  | cons c cs ih =>
    have step : ∀ (c0 : Char),
        (parseStrGo .normal (escList cs ++ '"' :: rest)).map
          (fun p => (c0 :: p.1, p.2)) = some (c0 :: cs, rest) := by
      intro c0; rw [ih]; rfl
    show parseStrGo .normal ((escChar c ++ escList cs) ++ ('"' :: rest)) = some (c :: cs, rest)
    rw [List.append_assoc]
    by_cases h1 : c = '\\'
    · subst h1; exact step '\\'
    · by_cases h2 : c = '"'
      · subst h2; exact step '"'
      · by_cases h3 : c = '\x08'
        · subst h3; exact step '\x08'
        · by_cases h4 : c = '\x0c'
          · subst h4; exact step '\x0c'
          · by_cases h5 : c = '\n'
            · subst h5; exact step '\n'
            · by_cases h6 : c = '\r'
              · subst h6; exact step '\r'
              · by_cases h7 : c = '\t'
                · subst h7; exact step '\t'
                · by_cases h8 : c.toNat < 32
                  · have he : escChar c = ['\\', 'u', '0', '0',
                        hexDigitChar (c.toNat / 16), hexDigitChar (c.toNat % 16)] := by
                      simp [escChar, h1, h2, h3, h4, h5, h6, h7, h8]
                    rw [he]
                    have hd1 : hexVal? (hexDigitChar (c.toNat / 16)) = some (c.toNat / 16) :=
                      hexVal_hexDigitChar (by omega)
                    have hd2 : hexVal? (hexDigitChar (c.toNat % 16)) = some (c.toNat % 16) :=
                      hexVal_hexDigitChar (by omega)
                    show parseStrGo (.hex 0 0)
                        ('0' :: '0' :: hexDigitChar (c.toNat / 16) ::
                         hexDigitChar (c.toNat % 16) :: (escList cs ++ '"' :: rest)) =
                      some (c :: cs, rest)
                    rw [parseStrGo_hex_step _ _ '0' 0 _ rfl (by omega)]
                    rw [parseStrGo_hex_step _ _ '0' 0 _ rfl (by omega)]
                    rw [parseStrGo_hex_step _ _ _ (c.toNat / 16) _ hd1 (by omega)]
                    norm_num
                    rw [parseStrGo_hex_last _ _ (c.toNat % 16) _ hd2]
                    rw [ih]
                    show some (Char.ofNat (16 * (c.toNat / 16) + c.toNat % 16) :: cs, rest) =
                      some (c :: cs, rest)
                    rw [show 16 * (c.toNat / 16) + c.toNat % 16 = c.toNat by omega,
                        Char.ofNat_toNat]
                  · have he : escChar c = [c] := by
                      simp [escChar, h1, h2, h3, h4, h5, h6, h7, h8]
                    rw [he]
                    have hgo : parseStrGo .normal (c :: (escList cs ++ '"' :: rest)) =
                        (parseStrGo .normal (escList cs ++ '"' :: rest)).map
                          (fun p => (c :: p.1, p.2)) := by
                      simp only [parseStrGo, if_neg h2, if_neg h1]
                    rw [List.singleton_append, hgo]
                    exact step c


/-- A serialised string value parses back, at any successor fuel. -/
theorem parseVal_str (n : Nat) (s : String) (rest : List Char) :
    parseVal (n + 1) (dumpsVal (.str s) ++ rest) = some (.str s, rest) := by
  obtain ⟨l⟩ := s
  show parseVal (n + 1) (('"' :: (escList l ++ ['"'])) ++ rest) = _
  rw [List.cons_append, List.append_assoc]
  show (parseStrGo .normal (escList l ++ (['"'] ++ rest))).map
      (fun p => (Json.str ⟨p.1⟩, p.2)) = _
  rw [show (['"'] ++ rest : List Char) = '"' :: rest from rfl, parseStrGo_escList]
  rfl

/-- A serialised boolean parses back, at any successor fuel. -/
theorem parseVal_bool (n : Nat) (b : Bool) (rest : List Char) :
    parseVal (n + 1) (dumpsVal (.bool b) ++ rest) = some (.bool b, rest) := by
  cases b <;> rfl

/-- The member reader is monotone in its fuel. -/
theorem parseMembersWith_mono (pv : List Char → Option (Json × List Char)) :
    ∀ (n m : Nat) (cs : List Char) (r : List (String × Json) × List Char),
      parseMembersWith pv n cs = some r → parseMembersWith pv (n + m) cs = some r := by
  intro n
  induction n with
  | zero => intro m cs r h; simp [parseMembersWith] at h
  | succ k ih =>
    intro m cs r h
    rw [show k + 1 + m = (k + m) + 1 by omega]
    cases cs with
    | nil => simp [parseMembersWith] at h
    | cons c rest =>
      simp only [parseMembersWith] at h ⊢
      split at h
      · split at h
        · split at h
          · simp only [Option.map_eq_some'] at h
            obtain ⟨p, hp, hr⟩ := h
            rw [ih m _ _ hp]
            simp [hr]
          · exact h
          · exact absurd h (by simp)
        · exact absurd h (by simp)
      · exact absurd h (by simp)


/-- Each member contributes at least one character to its serialisation. -/
theorem length_le_dumpsMembers (ms : List (String × Json)) :
    ms.length ≤ (dumpsMembers ms).length := by
  induction ms with
  | nil => simp [dumpsMembers]
  | cons kv ms' ih =>
    obtain ⟨k, v⟩ := kv
    cases ms' with
    | nil => simp [dumpsMembers]
    | cons m2 ms2 =>
      simp [dumpsMembers, List.length_append] at ih ⊢
      omega

/-- A serialised non-empty member list parses back at fuel equal to the
member count, provided every member value parses back. -/
theorem parseMembersWith_chain (pv : List Char → Option (Json × List Char)) :
    ∀ (ms : List (String × Json)) (tail : List Char),
      ms ≠ [] →
      (∀ kv ∈ ms, ∀ r, pv (dumpsVal kv.2 ++ r) = some (kv.2, r)) →
      parseMembersWith pv ms.length (dumpsMembers ms ++ '}' :: tail) = some (ms, tail) := by
  intro ms
  induction ms with
  | nil => intro tail h; exact absurd rfl h
  | cons kv ms' ih =>
    intro tail _ hvals
    obtain ⟨k, v⟩ := kv
    obtain ⟨kl⟩ := k
    have hv : ∀ r, pv (dumpsVal v ++ r) = some (v, r) := fun r =>
      hvals (⟨kl⟩, v) (List.mem_cons_self _ _) r
    cases ms' with
    | nil =>
      show parseMembersWith pv (0 + 1)
          ((('"' :: (escList kl ++ ['"', ':', ' '] ++ dumpsVal v))) ++ '}' :: tail) = _
      rw [List.cons_append]
      show (match parseStrBody ((escList kl ++ ['"', ':', ' '] ++ dumpsVal v) ++ '}' :: tail) with
        | some (k', ':' :: ' ' :: rest2) =>
          match pv rest2 with
          | some (v', ',' :: ' ' :: rest4) =>
            (parseMembersWith pv 0 rest4).map fun p => ((⟨k'⟩, v') :: p.1, p.2)
          | some (v', '}' :: rest4) => some ([(⟨k'⟩, v')], rest4)
          | _ => none
        | _ => none) = some ([(⟨kl⟩, v)], tail)
      rw [show (escList kl ++ ['"', ':', ' '] ++ dumpsVal v) ++ '}' :: tail =
          escList kl ++ ('"' :: (':' :: ' ' :: (dumpsVal v ++ '}' :: tail))) by
        simp [List.append_assoc]]
      show (match parseStrGo .normal (escList kl ++ '"' :: (':' :: ' ' :: (dumpsVal v ++ '}' :: tail))) with
        | some (k', ':' :: ' ' :: rest2) =>
          match pv rest2 with
          | some (v', ',' :: ' ' :: rest4) =>
            (parseMembersWith pv 0 rest4).map fun p => ((⟨k'⟩, v') :: p.1, p.2)
          | some (v', '}' :: rest4) => some ([(⟨k'⟩, v')], rest4)
          | _ => none
        | _ => none) = some ([(⟨kl⟩, v)], tail)
      rw [parseStrGo_escList]
      show (match pv (dumpsVal v ++ '}' :: tail) with
        | some (v', ',' :: ' ' :: rest4) =>
          (parseMembersWith pv 0 rest4).map fun p => ((⟨kl⟩, v') :: p.1, p.2)
        | some (v', '}' :: rest4) => some ([(⟨kl⟩, v')], rest4)
        | _ => none) = some ([(⟨kl⟩, v)], tail)
      rw [hv]
      rfl
    | cons m2 ms2 =>
      have hrest : ∀ kv2 ∈ m2 :: ms2, ∀ r, pv (dumpsVal kv2.2 ++ r) = some (kv2.2, r) :=
        fun kv2 h2 r => hvals kv2 (List.mem_cons_of_mem _ h2) r
      have ihm := ih tail (by simp) hrest
      show parseMembersWith pv ((m2 :: ms2).length + 1)
          (('"' :: (escList kl ++ ['"', ':', ' '] ++ dumpsVal v ++ [',', ' '] ++
            dumpsMembers (m2 :: ms2))) ++ '}' :: tail) = _
      rw [List.cons_append]
      rw [show (escList kl ++ ['"', ':', ' '] ++ dumpsVal v ++ [',', ' '] ++
            dumpsMembers (m2 :: ms2)) ++ '}' :: tail =
          escList kl ++ ('"' :: (':' :: ' ' :: (dumpsVal v ++
            (',' :: ' ' :: (dumpsMembers (m2 :: ms2) ++ '}' :: tail))))) by
        simp [List.append_assoc]]
      show (match parseStrGo .normal (escList kl ++ '"' :: (':' :: ' ' :: (dumpsVal v ++
            (',' :: ' ' :: (dumpsMembers (m2 :: ms2) ++ '}' :: tail))))) with
        | some (k', ':' :: ' ' :: rest2) =>
          match pv rest2 with
          | some (v', ',' :: ' ' :: rest4) =>
            (parseMembersWith pv (m2 :: ms2).length rest4).map fun p => ((⟨k'⟩, v') :: p.1, p.2)
          | some (v', '}' :: rest4) => some ([(⟨k'⟩, v')], rest4)
          | _ => none
        | _ => none) = some ((⟨kl⟩, v) :: m2 :: ms2, tail)
      rw [parseStrGo_escList]
      show (match pv (dumpsVal v ++ (',' :: ' ' :: (dumpsMembers (m2 :: ms2) ++ '}' :: tail))) with
        | some (v', ',' :: ' ' :: rest4) =>
          (parseMembersWith pv (m2 :: ms2).length rest4).map fun p => ((⟨kl⟩, v') :: p.1, p.2)
        | some (v', '}' :: rest4) => some ([(⟨kl⟩, v')], rest4)
        | _ => none) = some ((⟨kl⟩, v) :: m2 :: ms2, tail)
      rw [hv]
      show (parseMembersWith pv (m2 :: ms2).length (dumpsMembers (m2 :: ms2) ++ '}' :: tail)).map
          (fun p => ((⟨kl⟩, v) :: p.1, p.2)) = some ((⟨kl⟩, v) :: m2 :: ms2, tail)
      rw [ihm]
      rfl


/-- A serialised non-empty object parses back, given that its member
values parse back at the inner fuel. -/
theorem parseVal_obj (n : Nat) (ms : List (String × Json)) (tail : List Char)
    (hms : ms ≠ [])
    (hvals : ∀ kv ∈ ms, ∀ r, parseVal n (dumpsVal kv.2 ++ r) = some (kv.2, r)) :
    parseVal (n + 1) (dumpsVal (.obj ms) ++ tail) = some (.obj ms, tail) := by
  cases ms with
  | nil => exact absurd rfl hms
  | cons kv ms' =>
    obtain ⟨k, v⟩ := kv
    have hshape : ∃ t, dumpsMembers ((k, v) :: ms') = '"' :: t := by
      cases ms' <;> exact ⟨_, rfl⟩
    obtain ⟨t, ht⟩ := hshape
    rw [show dumpsVal (.obj ((k, v) :: ms')) ++ tail =
        '{' :: (dumpsMembers ((k, v) :: ms') ++ ('}' :: tail)) by
      simp [dumpsVal, List.append_assoc]]
    rw [ht, List.cons_append]
    show (parseMembersWith (parseVal n) (('"' :: (t ++ '}' :: tail)).length + 1)
        ('"' :: (t ++ '}' :: tail))).map (fun p => (Json.obj p.1, p.2)) =
      some (.obj ((k, v) :: ms'), tail)
    rw [← List.cons_append, ← ht]
    have hlb := length_le_dumpsMembers ((k, v) :: ms')
    obtain ⟨m, hm⟩ : ∃ m, (dumpsMembers ((k, v) :: ms') ++ '}' :: tail).length + 1 =
        ((k, v) :: ms').length + m := by
      refine ⟨(dumpsMembers ((k, v) :: ms') ++ '}' :: tail).length + 1 -
        ((k, v) :: ms').length, ?_⟩
      simp only [List.length_append, List.length_cons] at hlb ⊢
      omega
    rw [hm, parseMembersWith_mono (parseVal n) _ m _ _
      (parseMembersWith_chain (parseVal n) ((k, v) :: ms') tail (by simp) hvals)]
    rfl


/-- Both SSE payload shapes parse back from their serialisation. -/
theorem parseVal_ssePayload (cd : ContentData) (n : Nat) (tail : List Char) :
    parseVal (n + 3) (dumpsVal (ssePayload cd) ++ tail) = some (ssePayload cd, tail) := by
  by_cases ht : cd.has_text
  · rw [show ssePayload cd = .obj [("content", .str cd.content),
        ("type", .str "text_delta"),
        ("metadata", .obj [("event_type", .str cd.event_type),
          ("has_formatting", .bool (pyContains cd.content "\n"))])] by
      simp [ssePayload, ht]]
    refine parseVal_obj (n + 2) _ tail (by simp) ?_
    intro kv hkv r
    simp only [List.mem_cons, List.not_mem_nil, or_false] at hkv
    rcases hkv with h | h | h
    · subst h; exact parseVal_str (n + 1) _ r
    · subst h; exact parseVal_str (n + 1) _ r
    · subst h
      refine parseVal_obj (n + 1) _ r (by simp) ?_
      intro kv2 hkv2 r2
      simp only [List.mem_cons, List.not_mem_nil, or_false] at hkv2
      rcases hkv2 with h2 | h2
      · subst h2; exact parseVal_str n _ r2
      · subst h2; exact parseVal_bool n _ r2
  · rw [show ssePayload cd = .obj [("event", .str cd.raw_event),
        ("type", .str "event"),
        ("metadata", .obj [("event_type", .str cd.event_type)])] by
      simp [ssePayload, ht]]
    refine parseVal_obj (n + 2) _ tail (by simp) ?_
    intro kv hkv r
    simp only [List.mem_cons, List.not_mem_nil, or_false] at hkv
    rcases hkv with h | h | h
    · subst h; exact parseVal_str (n + 1) _ r
    · subst h; exact parseVal_str (n + 1) _ r
    · subst h
      refine parseVal_obj (n + 1) _ r (by simp) ?_
      intro kv2 hkv2 r2
      simp only [List.mem_cons, List.not_mem_nil, or_false] at hkv2
      subst hkv2; exact parseVal_str n _ r2

/-- Stripping the SSE framing recovers the framed JSON text. -/
theorem stripFrame_append (m : String) :
    stripFrame ("data: " ++ m ++ "\n\n") = some m := by
  obtain ⟨l⟩ := m
  show stripFrame ⟨('d' :: 'a' :: 't' :: 'a' :: ':' :: ' ' :: l) ++ ['\n', '\n']⟩ = _
  simp only [stripFrame, List.cons_append]
  rw [show (l ++ ['\n', '\n']).reverse = '\n' :: '\n' :: l.reverse by
    simp [List.reverse_append]]
  simp

/-- `json.loads` of `json.dumps` of an SSE payload is the payload. -/
theorem parseJson_dumps_ssePayload (cd : ContentData) :
    parseJson (dumps (ssePayload cd)) = some (ssePayload cd) := by
  unfold parseJson dumps
  obtain ⟨m, hm⟩ : ∃ m, (dumpsVal (ssePayload cd)).length + 1 = m + 3 := by
    refine ⟨(dumpsVal (ssePayload cd)).length - 2, ?_⟩
    have : 2 ≤ (dumpsVal (ssePayload cd)).length := by
      by_cases ht : cd.has_text <;>
        simp [ssePayload, ht, dumpsVal, List.length_append]
    omega
  show (match parseVal ((dumpsVal (ssePayload cd)).length + 1) (dumpsVal (ssePayload cd)) with
    | some (v, []) => some v
    | _ => none) = some (ssePayload cd)
  rw [hm]
  rw [show dumpsVal (ssePayload cd) = dumpsVal (ssePayload cd) ++ [] by simp]
  rw [parseVal_ssePayload cd m []]


/-- C9: `format(event)` is exactly `\"data: \"` + a JSON object + two
trailing newlines; stripping that framing and JSON-parsing the remainder
reproduces exactly the payload object built directly from
`extract(event)` (text shape when `has_text`, legacy event shape
otherwise). -/
theorem sse_roundtrip :
    ∀ (event : PyVal),
      formatDiyResponse event =
        "data: " ++ dumps (ssePayload (extractContentFromEvent event)) ++ "\n\n" ∧
      stripFrame (formatDiyResponse event) =
        some (dumps (ssePayload (extractContentFromEvent event))) ∧
      parseJson (dumps (ssePayload (extractContentFromEvent event))) =
        some (ssePayload (extractContentFromEvent event)) := by
  intro event
  refine ⟨rfl, ?_, parseJson_dumps_ssePayload _⟩
  exact stripFrame_append _


end AwsCloudOps
